import Mathlib

/-!
# Verification of the climate-dashboard data pipeline (`app.py`)

Shallow embedding of the two genuine pieces of logic in the repository:

* `get_climate_data` — acquisition/cache: check local files, otherwise
  download archive, extract, persist, and validate that all three datasets
  loaded (src/app.py lines 14–74);
* `process_data` — aggregation: parse dates to years, group the global
  table by year taking per-column arithmetic means, attach a trailing
  10-year rolling mean of the mean land-surface temperature, and annotate
  the country/city tables with a `Year` column (src/app.py lines 79–101);
* the tab-3 city-comparison rendering decision (src/app.py lines 231–265).

Conventions of the embedding:
* a pandas `DataFrame` becomes `Table`: a list of rows, each holding the
  raw date string `dt`, the numeric measurement columns as `List (Option ℚ)`
  aligned with `Table.numCols` (with `none` playing the role of `NaN`),
  an optional categorical column `cat` (the `Country`/`City` column of the
  two per-entity tables), and an optional derived `year` column (`none`
  while the `Year` column has not been assigned);
* `pd.to_datetime` followed by `.dt.year` is modelled by `parseYear` on the
  date string; a malformed date makes it `none`, which the pipeline
  propagates as a fatal error (`pd.to_datetime` raises);
* Python exceptions become `Option`/`Except` results;
* in-place mutation of the tables stored in the `data_files` dict becomes
  explicit state passing: `process_data` returns, next to its derived
  outputs, the post-call state `filesAfter` of its input mapping.
-/

/-- One record (row) of a raw tabular dataset.  `vals` holds the numeric
measurement columns, aligned with the table's `numCols`; `none` stands for a
missing value (`NaN`).  `cat` is the categorical `Country`/`City` column when
the table has one.  `year` is the derived `Year` column, absent (`none`)
until the aggregator assigns it. -/
structure Row where
  dt : String
  vals : List (Option ℚ)
  cat : Option String := none
  year : Option Int := none
  deriving Repr, DecidableEq

/-- An in-memory tabular dataset: the names of its numeric columns and its
rows. -/
structure Table where
  numCols : List String
  rows : List Row
  deriving Repr, DecidableEq

/-- The `data_files` mapping with its three fixed keys
`GlobalTemperatures.csv`, `GlobalLandTemperaturesByCountry.csv`,
`GlobalLandTemperaturesByCity.csv`. -/
structure Files where
  globalT : Table
  countriesT : Table
  citiesT : Table
  deriving Repr, DecidableEq

/-- Embedding of `pd.to_datetime(s).dt.year` on one date string of the
dataset (format `YYYY-MM-DD`): the leading four digits before the first
dash, as an integer year; `none` when malformed (where `pd.to_datetime`
raises). -/
def parseYear (s : String) : Option Int :=
  let ds := s.toList.takeWhile (fun c => c ≠ '-')
  if ds.length = 4 && ds.all (fun c => c.isDigit) then
    some (Int.ofNat (ds.foldl (fun n c => 10 * n + (c.toNat - 48)) 0))
  else none

/-- Embedding of the pair of statements
`t['dt'] = pd.to_datetime(t['dt']); t['Year'] = t['dt'].dt.year`
applied to the rows of one table (src/app.py lines 82–83, 89–90, 94–95):
every row gets its derived `year`; a single malformed date makes the whole
call fail (the library call raises).  The parsed datetime itself is
represented by the original date string. -/
def annRows : List Row → Option (List Row)
  | [] => some []
  | r :: rest =>
    match parseYear r.dt, annRows rest with
    | some y, some rs => some ({ r with year := some y } :: rs)
    | _, _ => none

/-- See `annRows`: the whole-table form, preserving the column list. -/
def annotate (t : Table) : Option Table :=
  match annRows t.rows with
  | none => none
  | some rs => some { t with rows := rs }

/-- Insert a year into a strictly-sorted list of years, keeping it sorted
and duplicate-free.  Used to embed the sorted, deduplicated group keys that
`DataFrame.groupby` produces. -/
def insYear (y : Int) : List Int → List Int
  | [] => [y]
  | a :: as => if y < a then y :: a :: as else if y = a then a :: as else a :: insYear y as

/-- The group keys of `t.groupby('Year')`: the distinct years of the table,
in increasing order (pandas sorts group keys). -/
def sortedYears (t : Table) : List Int :=
  t.rows.foldr (fun r acc => match r.year with | some y => insYear y acc | none => acc) []

/-- `mean` of one numeric column over a group of rows, as
`DataFrame.mean` computes it: missing values (`NaN`) are skipped, and a
group with no valid value yields `NaN` (`none`), never `0`. -/
def colMean (rows : List Row) (j : Nat) : Option ℚ :=
  let vs := rows.filterMap (fun r => r.vals.getD j none)
  if vs.isEmpty then none else some (vs.sum / (vs.length : ℚ))

/-- The per-column means of the year-`y` group of `t`:
one entry per numeric column of `t`. -/
def groupMeans (t : Table) (y : Int) : List (Option ℚ) :=
  (List.range t.numCols.length).map (fun j => colMean (t.rows.filter (fun r => r.year = some y)) j)

/-- The defined values of a window, when it has no missing one: `none` as
soon as any entry is `NaN`, embedding the `min_periods = window` behaviour
of `Series.rolling`. -/
def winVals : List (Option ℚ) → Option (List ℚ)
  | [] => some []
  | none :: _ => none
  | some v :: rest => (winVals rest).map (fun vs => v :: vs)

/-- Embedding of `Series.rolling(w).mean()` over a series with missing
values: entry `i` is `NaN` (`none`) while fewer than `w` values precede it
(`i + 1 < w`) or while any value of the trailing window of `w` entries
ending at `i` is `NaN`; otherwise it is the arithmetic mean of that
window. -/
def rollingMean (w : Nat) (s : List (Option ℚ)) : List (Option ℚ) :=
  (List.range s.length).map (fun i =>
    if i + 1 < w then none
    else
      match winVals ((s.drop (i + 1 - w)).take w) with
      | some vs => some (vs.sum / (w : ℚ))
      | none => none)

/-- The land-surface temperature column name used by the rolling mean. -/
def LAT : String := "LandAverageTemperature"

/-- One row of the derived `global_yearly` table: the group-key year
(restored as a column by `reset_index`), the per-column means, and the
`10Y_MA` column. -/
structure YRow where
  year : Int
  vals : List (Option ℚ)
  ma : Option ℚ
  deriving Repr, DecidableEq

/-- The derived `global_yearly` table.  Its numeric columns carry the same
names as the source's numeric columns; the non-numeric `dt` column is
dropped by `mean(numeric_only=True)`, which is why `YRow` has no `dt`
field. -/
structure YTable where
  numCols : List String
  rows : List YRow
  deriving Repr, DecidableEq

/-- Embedding of
`global_yearly = global_temp.groupby('Year').mean(numeric_only=True).reset_index()`
followed by
`global_yearly['10Y_MA'] = global_yearly['LandAverageTemperature'].rolling(10).mean()`
(src/app.py lines 84–85), applied to the already-annotated global table. -/
def global_yearly_of (g : Table) : YTable :=
  let base := (sortedYears g).map (fun y => (y, groupMeans g y))
  let j := g.numCols.indexOf LAT
  let s := base.map (fun p => p.2.getD j none)
  let ma := rollingMean 10 s
  { numCols := g.numCols
    rows := (base.zip ma).map (fun p => { year := p.1.1, vals := p.1.2, ma := p.2 }) }

/-- The result of `process_data`: the three derived views it returns, plus
the state of the input `data_files` tables after the call (the source
mutates them in place). -/
structure ProcOut where
  global_yearly : YTable
  countries : Table
  cities : Table
  filesAfter : Files
  deriving Repr, DecidableEq

/-- Embedding of `process_data` (src/app.py lines 79–101).  `none` embeds
the propagated exceptions: a malformed date in any of the three tables
(`pd.to_datetime` raises) or a global table without the
`LandAverageTemperature` column (the column lookup on line 85 raises
`KeyError`). -/
def process_data (files : Files) : Option ProcOut := do
  let g ← annotate files.globalT
  if LAT ∈ g.numCols then
    let c ← annotate files.countriesT
    let ci ← annotate files.citiesT
    some { global_yearly := global_yearly_of g
           countries := c
           cities := ci
           filesAfter := { globalT := g, countriesT := c, citiesT := ci } }
  else none

/-! ## Acquisition / cache (`get_climate_data`, src/app.py lines 14–74) -/

/-- The keys of the `required_files` dict (src/app.py lines 18–22). -/
def required_files : List String :=
  ["GlobalTemperatures.csv", "GlobalLandTemperaturesByCountry.csv",
   "GlobalLandTemperaturesByCity.csv"]

/-- The environment one run of `get_climate_data` observes.
`disk` is the set of filenames present in the working directory;
`diskParse f` is what `pd.read_csv(f)` would produce from the on-disk file
(`none` embeds a raised parse error); `netOk` covers the whole happy path of
`requests.get` + `raise_for_status` + opening the body as a ZIP archive
(any of those raising makes it `false`); `zipMembers` is `z.namelist()`;
`zipParse f` is what `pd.read_csv` produces from archive member `f`
(`none` embeds a raised parse error). -/
structure AcqEnv where
  disk : List String
  diskParse : String → Option Table
  netOk : Bool
  zipMembers : List String
  zipParse : String → Option Table

/-- The observable outcome of one run of `get_climate_data`: the value it
returns (the `required_files` mapping) or the halt it raises (`st.stop`, or
an uncaught exception on the disk path), the number of network requests
issued, and the filenames written by `df.to_csv`. -/
structure AcqResult where
  result : Except String (List (String × Option Table))
  networkCalls : Nat
  writes : List String

/-- The loop on src/app.py lines 26–27: fill the mapping by reading each
required file from disk; a raised `pd.read_csv` error aborts the whole
script (there is no try/except around this path). -/
def readDisk (env : AcqEnv) : List String → Except String (List (String × Option Table))
  | [] => .ok []
  | f :: fs =>
    match env.diskParse f with
    | none => .error "read_csv failed"
    | some t => (readDisk env fs).map (fun m => (f, some t) :: m)

/-- The extraction loop on src/app.py lines 52–58: for each required file,
parse it from the archive when present (a raised parse error propagates to
the surrounding `except`), otherwise report the missing member with
`st.error` and leave the entry `None`, continuing with the rest. -/
def extractLoop (env : AcqEnv) : List String → Except String (List (String × Option Table))
  | [] => .ok []
  | f :: fs =>
    if f ∈ env.zipMembers then
      match env.zipParse f with
      | none => .error "Download failed: read_csv"
      | some t => (extractLoop env fs).map (fun m => (f, some t) :: m)
    else
      (extractLoop env fs).map (fun m => (f, none) :: m)

/-- Embedding of `get_climate_data` (src/app.py lines 14–74).
Branches, in source order: the steady-state disk path (lines 25–28); the
download with every exception of the `try` block collapsed into
`env.netOk = false` (lines 31–34, 52); the extraction loop (lines 52–58);
the persistence loop `if df is not None and not os.path.exists(filename):
df.to_csv(...)` (lines 60–63); and the final all-loaded check that calls
`st.stop()` when some entry is still `None` (lines 66–68). -/
def get_climate_data (env : AcqEnv) : AcqResult :=
  if required_files.all (fun f => env.disk.contains f) then
    { result := readDisk env required_files, networkCalls := 0, writes := [] }
  else if !env.netOk then
    { result := .error "Download failed", networkCalls := 1, writes := [] }
  else
    match extractLoop env required_files with
    | .error e => { result := .error e, networkCalls := 1, writes := [] }
    | .ok m =>
      let ws := (m.filter (fun p => p.2.isSome && !env.disk.contains p.1)).map (fun p => p.1)
      if m.all (fun p => p.2.isSome) then
        { result := .ok m, networkCalls := 1, writes := ws }
      else
        { result := .error "One or more files failed to load properly.", networkCalls := 1,
          writes := ws }

/-- Embedding of `total_size = int(response.headers.get('content-length', 0))`
(src/app.py line 38); header values are modelled as already-parsed
integers. -/
def total_size (headers : List (String × Nat)) : Nat :=
  (((headers.find? (fun p => p.1 = "content-length")).map (fun p => p.2)).getD 0)

/-- Embedding of one progress update of the download loop,
`progress = min(downloaded / total_size, 1.0)` (src/app.py line 45).
Python's `/` raises `ZeroDivisionError` when `total_size` is `0`, embedded
as the `.error` branch. -/
def progressUpdate (downloaded ts : Nat) : Except String ℚ :=
  if ts = 0 then .error "ZeroDivisionError"
  else .ok (min ((downloaded : ℚ) / (ts : ℚ)) 1)

/-! ## City-comparison tab (src/app.py lines 231–265) -/

/-- What the city-comparison tab renders: a chart holding one trace per
selected city (each trace the `(Year, AverageTemperature)` pairs of that
city's rows), or a warning message and no chart. -/
inductive RenderOutcome where
  | chart (traces : List (String × List (Option Int × Option ℚ)))
  | warning (msg : String)
  deriving Repr, DecidableEq

/-- Embedding of the `if selected_cities: ... else: st.warning(...)` branch
of tab 3 (src/app.py lines 242–265), applied to the annotated cities table
and the multiselect value. -/
def tab3 (cities : Table) (selected : List String) : RenderOutcome :=
  if selected ≠ [] then
    let city_data := cities.rows.filter (fun r =>
      match r.cat with | some c => selected.contains c | none => false)
    let j := cities.numCols.indexOf "AverageTemperature"
    .chart (selected.map (fun c =>
      (c, (city_data.filter (fun r => r.cat = some c)).map (fun r => (r.year, r.vals.getD j none)))))
  else
    .warning "Please select at least one city"

/-! ## Concrete inputs used to instantiate the theorems -/

/-- A list of integers covers a contiguous range when it contains every
value lying between two of its members. -/
def contiguousRange (l : List Int) : Prop :=
  ∀ a b c, a ∈ l → b ∈ l → a ≤ c → c ≤ b → c ∈ l

/-- An empty table. -/
def emptyT : Table := { numCols := [], rows := [] }

/-- Default row of a derived yearly table, used with `List.getD`. -/
def dY : YRow := { year := 0, vals := [], ma := none }

/-- A one-record-per-table input mapping. -/
def exFiles6 : Files :=
  { globalT := { numCols := ["LandAverageTemperature"],
                 rows := [{ dt := "1900-01-01", vals := [some 1] }] }
    countriesT := { numCols := ["AverageTemperature"],
                    rows := [{ dt := "1900-01-01", vals := [some 2], cat := some "India" }] }
    citiesT := { numCols := ["AverageTemperature"],
                 rows := [{ dt := "1900-01-01", vals := [some 3], cat := some "Delhi" }] } }

/-- A global table whose records cover the years 1900 and 1902 but not
1901. -/
def exFiles8 : Files :=
  { globalT := { numCols := ["LandAverageTemperature"],
                 rows := [{ dt := "1900-01-01", vals := [some 1] },
                          { dt := "1902-01-01", vals := [some 2] }] }
    countriesT := emptyT
    citiesT := emptyT }

/-- A global table with eleven consecutive years 1900–1910, one record per
year, all with mean land-surface temperature 2. -/
def wFiles1 : Files :=
  { globalT := { numCols := ["LandAverageTemperature"],
                 rows := [{ dt := "1900-01-01", vals := [some 2] },
                          { dt := "1901-01-01", vals := [some 2] },
                          { dt := "1902-01-01", vals := [some 2] },
                          { dt := "1903-01-01", vals := [some 2] },
                          { dt := "1904-01-01", vals := [some 2] },
                          { dt := "1905-01-01", vals := [some 2] },
                          { dt := "1906-01-01", vals := [some 2] },
                          { dt := "1907-01-01", vals := [some 2] },
                          { dt := "1908-01-01", vals := [some 2] },
                          { dt := "1909-01-01", vals := [some 2] },
                          { dt := "1910-01-01", vals := [some 2] }] }
    countriesT := emptyT
    citiesT := emptyT }

/-- Records for years {1900, 1900, 1901} with temperatures {10, 20, 30},
plus a 1902 record whose temperature is missing (`NaN`). -/
def wFiles2 : Files :=
  { globalT := { numCols := ["LandAverageTemperature"],
                 rows := [{ dt := "1900-01-01", vals := [some 10] },
                          { dt := "1900-05-01", vals := [some 20] },
                          { dt := "1901-01-01", vals := [some 30] },
                          { dt := "1902-01-01", vals := [none] }] }
    countriesT := emptyT
    citiesT := emptyT }

/-- An environment in which all three cache files are on disk (and the
network is even unreachable). -/
def wEnv4 : AcqEnv :=
  { disk := required_files
    diskParse := fun _ => some emptyT
    netOk := false
    zipMembers := []
    zipParse := fun _ => none }

/-- An environment with an empty disk and an archive carrying all three
members. -/
def wEnv5 : AcqEnv :=
  { disk := []
    diskParse := fun _ => none
    netOk := true
    zipMembers := required_files
    zipParse := fun _ => some emptyT }

/-- An environment in which the global file is already on disk, the archive
carries the global and country members only, and both parse. -/
def wEnv7 : AcqEnv :=
  { disk := ["GlobalTemperatures.csv"]
    diskParse := fun _ => some emptyT
    netOk := true
    zipMembers := ["GlobalTemperatures.csv", "GlobalLandTemperaturesByCountry.csv"]
    zipParse := fun _ => some emptyT }

/-- The output of `process_data` on `wFiles1` (defined, since every date of
`wFiles1` parses and the global table has the temperature column). -/
def wOut1 : ProcOut := (process_data wFiles1).get (by decide)

/-- The output of `process_data` on `wFiles2`. -/
def wOut2 : ProcOut := (process_data wFiles2).get (by decide)

/-- The output of `process_data` on `exFiles8`. -/
def exOut8 : ProcOut := (process_data exFiles8).get (by decide)

/-- The output of `process_data` on `exFiles6`. -/
def exOut6 : ProcOut := (process_data exFiles6).get (by decide)

/-! ## Helper lemmas -/

theorem insYear_mem (x y : Int) (l : List Int) : x ∈ insYear y l ↔ x = y ∨ x ∈ l := by
  induction l with
  | nil => simp [insYear]
  | cons a as ih =>
    unfold insYear
    split_ifs with h1 h2
    · simp only [List.mem_cons]
    · subst h2
      simp only [List.mem_cons]
      tauto
    · simp only [List.mem_cons, ih]
      tauto

theorem insYear_sorted (y : Int) (l : List Int) (h : l.Pairwise (· < ·)) :
    (insYear y l).Pairwise (· < ·) := by
  induction l with
  | nil => simp [insYear]
  | cons a as ih =>
    have h' := List.pairwise_cons.mp h
    unfold insYear
    split_ifs with h1 h2
    · refine List.pairwise_cons.mpr ⟨?_, h⟩
      intro b hb
      rcases List.mem_cons.mp hb with rfl | hb
      · exact h1
      · exact lt_trans h1 (h'.1 b hb)
    · exact h
    · refine List.pairwise_cons.mpr ⟨?_, ih h'.2⟩
      intro b hb
      rcases (insYear_mem b y as).mp hb with rfl | hb
      · omega
      · exact h'.1 b hb

theorem sortedYears_sorted (t : Table) : (sortedYears t).Pairwise (· < ·) := by
  unfold sortedYears
  induction t.rows with
  | nil => simp
  | cons r rs ih =>
    simp only [List.foldr_cons]
    cases r.year with
    | none => exact ih
    | some y => exact insYear_sorted y _ ih

theorem sortedYears_mem (t : Table) (y : Int) :
    y ∈ sortedYears t ↔ ∃ r ∈ t.rows, r.year = some y := by
  unfold sortedYears
  induction t.rows with
  | nil => simp
  | cons r rs ih =>
    simp only [List.foldr_cons, List.mem_cons]
    cases hr : r.year with
    | none =>
      rw [ih]
      constructor
      · rintro ⟨r', hr', h⟩; exact ⟨r', Or.inr hr', h⟩
      · rintro ⟨r', hr' | hr', h⟩
        · subst hr'; rw [hr] at h; cases h
        · exact ⟨r', hr', h⟩
    | some y' =>
      rw [insYear_mem, ih]
      constructor
      · rintro (rfl | ⟨r', hr', h⟩)
        · exact ⟨r, Or.inl rfl, hr⟩
        · exact ⟨r', Or.inr hr', h⟩
      · rintro ⟨r', hr' | hr', h⟩
        · subst hr'; rw [hr] at h
          exact Or.inl (Option.some_injective _ h).symm
        · exact Or.inr ⟨r', hr', h⟩

/-- The relation between one raw row and its annotated version. -/
def annRel (r r' : Row) : Prop :=
  (parseYear r.dt).isSome ∧ r' = { r with year := parseYear r.dt }

theorem annRows_forall₂ (rows rs : List Row) (hm : annRows rows = some rs) :
    List.Forall₂ annRel rows rs := by
  induction rows generalizing rs with
  | nil =>
    cases hm
    exact List.Forall₂.nil
  | cons r rest ih =>
    unfold annRows at hm
    rcases hp : parseYear r.dt with _ | y <;> rw [hp] at hm
    · cases hm
    · rcases hrest : annRows rest with _ | rs' <;> rw [hrest] at hm
      · cases hm
      · cases hm
        exact List.forall₂_cons.mpr ⟨⟨by simp [hp], by simp [hp]⟩, ih rs' hrest⟩

theorem annRows_isSome (rows : List Row) :
    (annRows rows).isSome ↔ ∀ r ∈ rows, (parseYear r.dt).isSome := by
  induction rows with
  | nil => simp [annRows]
  | cons r rest ih =>
    unfold annRows
    rcases hp : parseYear r.dt with _ | y
    · simp [hp]
    · rcases hrest : annRows rest with _ | rs' <;> simp_all

theorem annotate_rows (t t' : Table) (h : annotate t = some t') :
    List.Forall₂ annRel t.rows t'.rows := by
  unfold annotate at h
  rcases hm : annRows t.rows with _ | rs <;> rw [hm] at h
  · cases h
  · cases h
    exact annRows_forall₂ t.rows rs hm

theorem annotate_numCols (t t' : Table) (h : annotate t = some t') :
    t'.numCols = t.numCols := by
  unfold annotate at h
  rcases hm : annRows t.rows with _ | rs <;> rw [hm] at h
  · cases h
  · cases h; rfl

theorem annotate_isSome (t : Table) :
    (annotate t).isSome ↔ ∀ r ∈ t.rows, (parseYear r.dt).isSome := by
  rw [← annRows_isSome t.rows]
  unfold annotate
  rcases hm : annRows t.rows with _ | rs <;> simp [hm]

theorem winVals_of_isSome (l : List (Option ℚ)) (h : ∀ o ∈ l, o.isSome) :
    winVals l = some (l.filterMap id) := by
  induction l with
  | nil => rfl
  | cons o rest ih =>
    rcases o with _ | v
    · exact absurd (h none (List.mem_cons_self _ _)) (by simp)
    · rw [show winVals (some v :: rest)
          = (winVals rest).map (fun vs => v :: vs) from rfl,
        ih (fun o ho => h o (List.mem_cons_of_mem _ ho))]
      rfl

theorem rollingMean_length (w : Nat) (s : List (Option ℚ)) :
    (rollingMean w s).length = s.length := by
  simp [rollingMean]

theorem getD_map_proj {α β : Type} (f : α → β) (l : List α) (i : Nat) (d : α) :
    f (l.getD i d) = (l.map f).getD i (f d) := by
  induction l generalizing i with
  | nil => simp
  | cons a t ih => cases i <;> simp [ih]

theorem rollingMean_getD (w : Nat) (s : List (Option ℚ)) (i : Nat) (hi : i < s.length) :
    (rollingMean w s).getD i none
      = if i + 1 < w then none
        else
          match winVals ((s.drop (i + 1 - w)).take w) with
          | some vs => some (vs.sum / (w : ℚ))
          | none => none := by
  rw [List.getD_eq_getElem _ _ (by rw [rollingMean_length]; exact hi)]
  unfold rollingMean
  rw [List.getElem_map, List.getElem_range]

theorem map_fst_zip_comp {α β γ : Type} (f : α → γ) (l₁ : List α) (l₂ : List β)
    (h : l₁.length ≤ l₂.length) :
    (l₁.zip l₂).map (fun p => f p.1) = l₁.map f := by
  rw [show (fun p : α × β => f p.1) = f ∘ Prod.fst from rfl, ← List.map_map,
    List.map_fst_zip _ _ h]

theorem gy_numCols (g : Table) : (global_yearly_of g).numCols = g.numCols := rfl

theorem gy_rows_length (g : Table) :
    (global_yearly_of g).rows.length = (sortedYears g).length := by
  simp [global_yearly_of, rollingMean_length]

theorem gy_map_year (g : Table) :
    (global_yearly_of g).rows.map (fun r => r.year) = sortedYears g := by
  apply List.ext_getElem
  · simpa using gy_rows_length g
  · intro i h1 h2
    simp [global_yearly_of, rollingMean_length, List.getElem_zip]

theorem gy_map_ma (g : Table) :
    (global_yearly_of g).rows.map (fun r => r.ma)
      = rollingMean 10 ((sortedYears g).map
          (fun y => (groupMeans g y).getD (g.numCols.indexOf LAT) none)) := by
  have hs : (List.map (fun y => (y, groupMeans g y)) (sortedYears g)).map
      (fun p => p.2.getD (g.numCols.indexOf LAT) none)
      = (sortedYears g).map (fun y => (groupMeans g y).getD (g.numCols.indexOf LAT) none) := by
    rw [List.map_map]
    rfl
  apply List.ext_getElem
  · simp [gy_rows_length, global_yearly_of, rollingMean_length]
  · intro i h1 h2
    rw [List.getElem_map]
    unfold global_yearly_of
    dsimp only
    rw [List.getElem_map, List.getElem_zip]
    dsimp only
    simp only [hs]

theorem gy_map_lat (g : Table) :
    (global_yearly_of g).rows.map (fun r => r.vals.getD (g.numCols.indexOf LAT) none)
      = (sortedYears g).map
          (fun y => (groupMeans g y).getD (g.numCols.indexOf LAT) none) := by
  apply List.ext_getElem
  · simp [gy_rows_length, global_yearly_of, rollingMean_length]
  · intro i h1 h2
    simp [global_yearly_of, rollingMean_length, List.getElem_zip]

theorem gy_mem (g : Table) (row : YRow) (h : row ∈ (global_yearly_of g).rows) :
    row.year ∈ sortedYears g ∧ row.vals = groupMeans g row.year := by
  unfold global_yearly_of at h
  simp only [List.mem_map] at h
  obtain ⟨⟨q, m⟩, hpz, rfl⟩ := h
  obtain ⟨hq, _⟩ := List.of_mem_zip hpz
  simp only [List.mem_map] at hq
  obtain ⟨y, hy, rfl⟩ := hq
  exact ⟨hy, rfl⟩

theorem groupMeans_getD (g : Table) (y : Int) (j : Nat) (hj : j < g.numCols.length) :
    (groupMeans g y).getD j none
      = colMean (g.rows.filter (fun r => r.year = some y)) j := by
  unfold groupMeans
  rw [List.getD_eq_getElem _ _ (by simpa using hj)]
  simp

theorem process_data_some (files : Files) (out : ProcOut) (h : process_data files = some out) :
    ∃ g c ci, annotate files.globalT = some g ∧ annotate files.countriesT = some c ∧
      annotate files.citiesT = some ci ∧ LAT ∈ g.numCols ∧
      out.global_yearly = global_yearly_of g ∧ out.countries = c ∧ out.cities = ci ∧
      out.filesAfter = { globalT := g, countriesT := c, citiesT := ci } := by
  simp only [process_data, Option.bind_eq_bind, Option.bind_eq_some] at h
  obtain ⟨g, hg, h⟩ := h
  by_cases hL : LAT ∈ g.numCols
  · rw [if_pos hL] at h
    simp only [Option.bind_eq_some] at h
    obtain ⟨c, hc, h⟩ := h
    obtain ⟨ci, hci, h⟩ := h
    cases h
    exact ⟨g, c, ci, hg, hc, hci, hL, rfl, rfl, rfl, rfl⟩
  · rw [if_neg hL] at h
    cases h

theorem forall₂_year_mem (rows rows' : List Row) (h : List.Forall₂ annRel rows rows')
    (y : Int) :
    (∃ r' ∈ rows', r'.year = some y) ↔ ∃ r ∈ rows, parseYear r.dt = some y := by
  induction h with
  | nil => simp
  | cons hr _ ih =>
    obtain ⟨_, rfl⟩ := hr
    constructor
    · rintro ⟨r', hm, hy⟩
      rcases List.mem_cons.mp hm with rfl | hm
      · exact ⟨_, List.mem_cons_self _ _, hy⟩
      · obtain ⟨r, hr, hy'⟩ := ih.mp ⟨r', hm, hy⟩
        exact ⟨r, List.mem_cons_of_mem _ hr, hy'⟩
    · rintro ⟨r, hm, hy⟩
      rcases List.mem_cons.mp hm with rfl | hm
      · exact ⟨_, List.mem_cons_self _ _, hy⟩
      · obtain ⟨r', hr', hy'⟩ := ih.mpr ⟨r, hm, hy⟩
        exact ⟨r', List.mem_cons_of_mem _ hr', hy'⟩

theorem forall₂_filter_vals (rows rows' : List Row) (h : List.Forall₂ annRel rows rows')
    (y : Int) (j : Nat) :
    (rows'.filter (fun r => r.year = some y)).filterMap (fun r => r.vals.getD j none)
      = (rows.filter (fun r => parseYear r.dt = some y)).filterMap
          (fun r => r.vals.getD j none) := by
  induction h with
  | nil => rfl
  | @cons a b l₁ l₂ hr _ ih =>
    obtain ⟨_, rfl⟩ := hr
    have hb : ({ a with year := parseYear a.dt } : Row).year = parseYear a.dt := rfl
    by_cases hy : parseYear a.dt = some y
    · rw [List.filter_cons, List.filter_cons, if_pos (by simp [hy]),
        if_pos (by simp [hb, hy]), List.filterMap_cons, List.filterMap_cons, ih]
    · rw [List.filter_cons, List.filter_cons, if_neg (by simp [hy]),
        if_neg (by simp [hb, hy]), ih]

theorem readDisk_ok (env : AcqEnv) (fs : List String)
    (h : ∀ f ∈ fs, (env.diskParse f).isSome) :
    readDisk env fs = .ok (fs.map (fun f => (f, env.diskParse f))) := by
  induction fs with
  | nil => rfl
  | cons f fs ih =>
    unfold readDisk
    rcases hp : env.diskParse f with _ | t
    · exact absurd (h f (List.mem_cons_self f fs)) (by simp [hp])
    · rw [ih (fun f' hf' => h f' (List.mem_cons_of_mem f hf'))]
      simp [Except.map, hp]

theorem readDisk_ok_inv (env : AcqEnv) (fs : List String)
    (m : List (String × Option Table)) (h : readDisk env fs = .ok m) :
    m = fs.map (fun f => (f, env.diskParse f)) ∧ ∀ f ∈ fs, (env.diskParse f).isSome := by
  induction fs generalizing m with
  | nil => cases h; exact ⟨rfl, by simp⟩
  | cons f fs ih =>
    unfold readDisk at h
    rcases hp : env.diskParse f with _ | t <;> rw [hp] at h
    · cases h
    · rcases hr : readDisk env fs with e | m' <;> rw [hr] at h <;>
        simp only [Except.map] at h
      · cases h
      · cases h
        obtain ⟨hm, hall⟩ := ih m' hr
        refine ⟨by simp [hm, hp], ?_⟩
        intro f' hf'
        rcases List.mem_cons.mp hf' with rfl | hf'
        · simp [hp]
        · exact hall f' hf'

theorem extractLoop_ok_inv (env : AcqEnv) (fs : List String)
    (m : List (String × Option Table)) (h : extractLoop env fs = .ok m) :
    m = fs.map (fun f => (f, if f ∈ env.zipMembers then env.zipParse f else none))
      ∧ ∀ f ∈ fs, f ∈ env.zipMembers → (env.zipParse f).isSome := by
  induction fs generalizing m with
  | nil => cases h; exact ⟨rfl, by simp⟩
  | cons f fs ih =>
    unfold extractLoop at h
    by_cases hf : f ∈ env.zipMembers
    · rw [if_pos hf] at h
      rcases hp : env.zipParse f with _ | t <;> rw [hp] at h
      · cases h
      · rcases hr : extractLoop env fs with e | m' <;> rw [hr] at h <;>
          simp only [Except.map] at h
        · cases h
        · cases h
          obtain ⟨hm, hall⟩ := ih m' hr
          refine ⟨by simp [hm, hf, hp], ?_⟩
          intro f' hf' _
          rcases List.mem_cons.mp hf' with rfl | hf'
          · simp [hp]
          · exact hall f' hf' (by assumption)
    · rw [if_neg hf] at h
      rcases hr : extractLoop env fs with e | m' <;> rw [hr] at h <;>
        simp only [Except.map] at h
      · cases h
      · cases h
        obtain ⟨hm, hall⟩ := ih m' hr
        refine ⟨by simp [hm, hf], ?_⟩
        intro f' hf' hmem
        rcases List.mem_cons.mp hf' with rfl | hf'
        · exact absurd hmem hf
        · exact hall f' hf' hmem

/-! ## Claim theorems -/

/-- C3, failing input: when the response carries no `content-length` header,
the code's `total_size` defaults to `0` and the very first progress update
raises `ZeroDivisionError` instead of reporting progress `0` as the
specification prescribes. -/
theorem progress_unknown_length_divides_by_zero :
    total_size [] = 0 ∧ progressUpdate 8192 (total_size []) = .error "ZeroDivisionError" := by
  constructor <;> rfl

/-- C9: when the set of selected cities is empty, the city-comparison tab
emits the explicit "Please select at least one city" warning (and hence no
chart), for every cities table. -/
theorem tab3_empty_selection_warns (ct : Table) :
    tab3 ct [] = .warning "Please select at least one city" := by
  rfl

/-- C10: for every input on which `process_data` succeeds, the rows of the
derived `global_yearly` table are in strictly increasing order of `Year`,
with no duplicate year. -/
theorem global_yearly_year_strict_sorted (files : Files) (out : ProcOut)
    (h : process_data files = some out) :
    (out.global_yearly.rows.map (fun r => r.year)).Pairwise (· < ·) ∧
      (out.global_yearly.rows.map (fun r => r.year)).Nodup := by
  obtain ⟨g, c, ci, hg, hc, hci, hL, hgy, _, _, _⟩ := process_data_some files out h
  rw [hgy, gy_map_year]
  exact ⟨sortedYears_sorted g,
    (sortedYears_sorted g).imp (fun hab => ne_of_lt hab)⟩

/-- Witness for C10 at the concrete input `wFiles2`. -/
theorem global_yearly_year_strict_sorted_witness :
    (wOut2.global_yearly.rows.map (fun r => r.year)).Pairwise (· < ·) ∧
      (wOut2.global_yearly.rows.map (fun r => r.year)).Nodup :=
  global_yearly_year_strict_sorted wFiles2 wOut2 (Option.some_get (by decide)).symm

/-- C8, counterexample: a global table whose records cover the years 1900
and 1902 but not 1901 yields an output year column `[1900, 1902]`, which is
not a contiguous integer range, so the claimed contiguity invariant fails
as stated. -/
theorem global_yearly_contiguity_cex :
    (process_data exFiles8).map (fun o => o.global_yearly.rows.map (fun r => r.year))
        = some [1900, 1902] ∧
      ¬ contiguousRange [1900, 1902] := by
  constructor
  · decide
  · intro hcontig
    exact absurd (hcontig 1900 1902 1901 (by decide) (by decide) (by decide) (by decide))
      (by decide)

/-- C8 (amended): the years of the derived `global_yearly` table are exactly
the set of years present in the source records (in strictly increasing
order, see C10); they cover a contiguous range whenever the source years
themselves do, but a gap in the source years produces the same gap in the
output. -/
theorem global_yearly_years_exactly_source (files : Files) (out : ProcOut)
    (h : process_data files = some out) :
    (∀ y : Int, y ∈ out.global_yearly.rows.map (fun r => r.year)
        ↔ ∃ r ∈ files.globalT.rows, parseYear r.dt = some y) ∧
      (contiguousRange (files.globalT.rows.filterMap (fun r => parseYear r.dt)) →
        contiguousRange (out.global_yearly.rows.map (fun r => r.year))) := by
  obtain ⟨g, c, ci, hg, hc, hci, hL, hgy, _, _, _⟩ := process_data_some files out h
  have hmem : ∀ y : Int, y ∈ out.global_yearly.rows.map (fun r => r.year)
      ↔ ∃ r ∈ files.globalT.rows, parseYear r.dt = some y := by
    intro y
    rw [hgy, gy_map_year, sortedYears_mem]
    exact forall₂_year_mem _ _ (annotate_rows _ _ hg) y
  refine ⟨hmem, ?_⟩
  intro hsrc a b c' ha hb hac hcb
  rw [hmem]
  rw [hmem] at ha hb
  rw [← List.mem_filterMap] at ha hb
  have hc' := hsrc a b c' ha hb hac hcb
  rw [List.mem_filterMap] at hc'
  exact hc'

/-- Witness for the amended C8 at the concrete input `exFiles8`. -/
theorem global_yearly_years_exactly_source_witness :
    1900 ∈ exOut8.global_yearly.rows.map (fun r => r.year)
      ↔ ∃ r ∈ exFiles8.globalT.rows, parseYear r.dt = some 1900 :=
  (global_yearly_years_exactly_source exFiles8 exOut8
    (Option.some_get (by decide)).symm).1 1900

/-- C4: when all three expected dataset files are present on disk,
`get_climate_data` issues no network request, and (when the on-disk files
parse) returns exactly the three tables loaded from disk. -/
theorem disk_hit_no_network (env : AcqEnv) (hall : ∀ f ∈ required_files, f ∈ env.disk) :
    (get_climate_data env).networkCalls = 0 ∧
      ((∀ f ∈ required_files, (env.diskParse f).isSome) →
        (get_climate_data env).result
          = .ok (required_files.map (fun f => (f, env.diskParse f)))) := by
  have hcond : required_files.all (fun f => env.disk.contains f) = true :=
    List.all_eq_true.mpr (fun f hf => by simpa using hall f hf)
  unfold get_climate_data
  rw [if_pos hcond]
  exact ⟨rfl, fun hp => by simp [readDisk_ok env required_files hp]⟩

/-- Witness for C4 at the concrete environment `wEnv4`, whose network is
even unreachable. -/
theorem disk_hit_no_network_witness :
    (get_climate_data wEnv4).networkCalls = 0 ∧
      (get_climate_data wEnv4).result
        = .ok (required_files.map (fun f => (f, some emptyT))) := by
  have h := disk_hit_no_network wEnv4 (by decide)
  refine ⟨h.1, ?_⟩
  have h2 := h.2 (fun f _ => by simp [wEnv4])
  simpa [wEnv4] using h2

/-- C5: whenever `get_climate_data` returns (rather than halting), the
returned mapping binds exactly the three required dataset names and every
one of them holds a loaded table — no partial mapping is ever returned. -/
theorem no_partial_return (env : AcqEnv) (m : List (String × Option Table))
    (h : (get_climate_data env).result = .ok m) :
    m.map (fun p => p.1) = required_files ∧ ∀ p ∈ m, p.2.isSome := by
  unfold get_climate_data at h
  by_cases hd : required_files.all (fun f => env.disk.contains f) = true
  · -- steady-state disk path
    rw [if_pos hd] at h
    dsimp only at h
    obtain ⟨hm, hall⟩ := readDisk_ok_inv env required_files m h
    subst hm
    constructor
    · rw [List.map_map]
      exact List.map_id required_files
    · intro p hp
      simp only [List.mem_map] at hp
      obtain ⟨f, hf, rfl⟩ := hp
      simpa using hall f hf
  · rw [if_neg hd] at h
    by_cases hn : (!env.netOk) = true
    · rw [if_pos hn] at h
      simp at h
    · rw [if_neg hn] at h
      rcases hext : extractLoop env required_files with e | m₀ <;> rw [hext] at h
      · simp at h
      · dsimp only at h
        by_cases hok : (m₀.all fun p => p.2.isSome) = true
        · rw [if_pos hok] at h
          dsimp only at h
          cases h
          obtain ⟨hm, _⟩ := extractLoop_ok_inv env required_files m hext
          constructor
          · rw [hm, List.map_map]
            exact List.map_id required_files
          · exact fun p hp => List.all_eq_true.mp hok p hp
        · rw [if_neg hok] at h
          simp at h

/-- Witness for C5 at the concrete environment `wEnv5`: the download
succeeds with all three members present, and the returned mapping is total
over the three names. -/
theorem no_partial_return_witness :
    (required_files.map (fun f => (f, some emptyT))).map (fun p => p.1) = required_files ∧
      ∀ p ∈ required_files.map (fun f => (f, some emptyT)), p.2.isSome :=
  no_partial_return wEnv5 (required_files.map (fun f => (f, some emptyT))) (by rfl)

/-- C7: files written by the download path.  Unconditionally, every file
written was a successfully parsed archive member whose file was not already
on disk (so existing files are never overwritten and failed datasets are
never persisted); and on a completed extraction, every successfully parsed
member not already on disk is written. -/
theorem persist_policy (env : AcqEnv) :
    (∀ f ∈ (get_climate_data env).writes,
        f ∈ required_files ∧ f ∉ env.disk ∧ f ∈ env.zipMembers
          ∧ (env.zipParse f).isSome) ∧
    (∀ m, ¬ (∀ f ∈ required_files, f ∈ env.disk) → env.netOk = true →
        extractLoop env required_files = .ok m →
        ∀ f ∈ required_files, f ∈ env.zipMembers → f ∉ env.disk →
          f ∈ (get_climate_data env).writes) := by
  constructor
  · intro f hf
    unfold get_climate_data at hf
    by_cases hd : required_files.all (fun f => env.disk.contains f) = true
    · rw [if_pos hd] at hf
      simp at hf
    · rw [if_neg hd] at hf
      by_cases hn : (!env.netOk) = true
      · rw [if_pos hn] at hf
        simp at hf
      · rw [if_neg hn] at hf
        rcases hext : extractLoop env required_files with e | m₀ <;> rw [hext] at hf
        · simp at hf
        · dsimp only at hf
          obtain ⟨hm, _⟩ := extractLoop_ok_inv env required_files m₀ hext
          have hw : f ∈ (m₀.filter
              (fun p => p.2.isSome && !env.disk.contains p.1)).map (fun p => p.1) := by
            by_cases hok : (m₀.all fun p => p.2.isSome) = true
            · rw [if_pos hok] at hf
              exact hf
            · rw [if_neg hok] at hf
              exact hf
          simp only [List.mem_map, List.mem_filter] at hw
          obtain ⟨⟨fa, o⟩, ⟨hmem, hcond⟩, rfl⟩ := hw
          rw [hm] at hmem
          simp only [List.mem_map] at hmem
          obtain ⟨fb, hfb, heq⟩ := hmem
          rw [Prod.mk.injEq] at heq
          obtain ⟨rfl, rfl⟩ := heq
          simp only [Bool.and_eq_true, Bool.not_eq_true'] at hcond
          have hnd : fb ∉ env.disk := by simpa using hcond.2
          by_cases hz : fb ∈ env.zipMembers
          · rw [if_pos hz] at hcond
            exact ⟨hfb, hnd, hz, hcond.1⟩
          · rw [if_neg hz] at hcond
            exact absurd hcond.1 (by simp)
  · intro m hd hn hext f hf hz hnd
    have hcond : ¬ required_files.all (fun f => env.disk.contains f) = true := by
      intro hc
      exact hd (fun f' hf' => by simpa using List.all_eq_true.mp hc f' hf')
    obtain ⟨hm, hallz⟩ := extractLoop_ok_inv env required_files m hext
    have hsome : (env.zipParse f).isSome := hallz f hf hz
    have hwmem : f ∈ (m.filter
        (fun p => p.2.isSome && !env.disk.contains p.1)).map (fun p => p.1) := by
      simp only [List.mem_map, List.mem_filter]
      refine ⟨(f, if f ∈ env.zipMembers then env.zipParse f else none), ⟨?_, ?_⟩, rfl⟩
      · rw [hm]
        simp only [List.mem_map]
        exact ⟨f, hf, rfl⟩
      · rw [if_pos hz]
        simp only [Bool.and_eq_true, Bool.not_eq_true']
        refine ⟨hsome, ?_⟩
        by_cases hdc : env.disk.contains f = true
        · exact absurd (by simpa using hdc) hnd
        · simpa using hdc
    unfold get_climate_data
    rw [if_neg hcond, hn]
    simp only [Bool.not_true]
    rw [if_neg (by simp)]
    rw [hext]
    dsimp only
    by_cases hb : (m.all fun p => p.2.isSome) = true
    · rw [if_pos hb]
      exact hwmem
    · rw [if_neg hb]
      exact hwmem

/-- Witness for C7 at the concrete environment `wEnv7`: the country file
(parsed, absent from disk) is written, the global file (already on disk) is
not overwritten. -/
theorem persist_policy_witness :
    "GlobalLandTemperaturesByCountry.csv" ∈ (get_climate_data wEnv7).writes ∧
      "GlobalTemperatures.csv" ∉ (get_climate_data wEnv7).writes := by
  constructor
  · exact (persist_policy wEnv7).2
      (required_files.map (fun f => (f, if f ∈ wEnv7.zipMembers then wEnv7.zipParse f else none)))
      (by decide) (by decide) (by rfl)
      "GlobalLandTemperaturesByCountry.csv" (by decide) (by decide) (by decide)
  · intro hmem
    exact absurd ((persist_policy wEnv7).1 _ hmem).2.1 (by decide)

/-- C2: for every input on which `process_data` succeeds, each row of the
derived `global_yearly` table carries a year occurring among the source
records' derived years (records are grouped by derived integer year), and
each numeric column of the row equals the arithmetic mean — not the sum —
of that column's valid values over the records of that year; a year group
with zero valid values yields an undefined mean (`none`), never `0`.  (The
non-numeric `dt` column is dropped: an output row has only the year, the
numeric means and the moving average.) -/
theorem global_yearly_group_mean (files : Files) (out : ProcOut)
    (h : process_data files = some out) (row : YRow) (hrow : row ∈ out.global_yearly.rows)
    (j : Nat) (hj : j < out.global_yearly.numCols.length) :
    (∃ r ∈ files.globalT.rows, parseYear r.dt = some row.year) ∧
      row.vals.getD j none
        = (if ((files.globalT.rows.filter (fun r => parseYear r.dt = some row.year)).filterMap
              (fun r => r.vals.getD j none)).isEmpty
           then none
           else some (((files.globalT.rows.filter
                (fun r => parseYear r.dt = some row.year)).filterMap
                (fun r => r.vals.getD j none)).sum
             / (((files.globalT.rows.filter
                (fun r => parseYear r.dt = some row.year)).filterMap
                (fun r => r.vals.getD j none)).length : ℚ))) := by
  obtain ⟨g, c, ci, hg, hc, hci, hL, hgy, _, _, _⟩ := process_data_some files out h
  rw [hgy] at hrow
  obtain ⟨hyear, hvals⟩ := gy_mem g row hrow
  have hforall := annotate_rows _ _ hg
  constructor
  · exact (forall₂_year_mem _ _ hforall row.year).mp ((sortedYears_mem g row.year).mp hyear)
  · have hj' : j < g.numCols.length := by
      rw [hgy, gy_numCols] at hj
      exact hj
    rw [hvals, groupMeans_getD g row.year j hj']
    unfold colMean
    rw [forall₂_filter_vals _ _ hforall row.year j]

/-- Witness for C2: records for years {1900, 1900, 1901} with temperatures
{10, 20, 30} yield a 1900 mean of 15, and the all-`NaN` 1902 group yields
an undefined mean. -/
theorem global_yearly_group_mean_witness :
    (wOut2.global_yearly.rows.getD 0 dY).vals.getD 0 none = some 15 ∧
      (wOut2.global_yearly.rows.getD 2 dY).vals.getD 0 none = none := by
  have h0 := global_yearly_group_mean wFiles2 wOut2 (Option.some_get (by decide)).symm
      (wOut2.global_yearly.rows.get ⟨0, by decide⟩) (List.get_mem _ _ _) 0 (by decide)
  have h2 := global_yearly_group_mean wFiles2 wOut2 (Option.some_get (by decide)).symm
      (wOut2.global_yearly.rows.get ⟨2, by decide⟩) (List.get_mem _ _ _) 0 (by decide)
  have hy0 : (wOut2.global_yearly.rows.get ⟨0, by decide⟩).year = 1900 := by decide
  have hy2 : (wOut2.global_yearly.rows.get ⟨2, by decide⟩).year = 1902 := by decide
  rw [hy0] at h0
  rw [hy2] at h2
  have hvs0 : (wFiles2.globalT.rows.filter (fun r => parseYear r.dt = some 1900)).filterMap
      (fun r => r.vals.getD 0 none) = [10, 20] := by decide
  have hvs2 : (wFiles2.globalT.rows.filter (fun r => parseYear r.dt = some 1902)).filterMap
      (fun r => r.vals.getD 0 none) = [] := by decide
  rw [hvs0] at h0
  rw [hvs2] at h2
  constructor
  · rw [show wOut2.global_yearly.rows.getD 0 dY
        = wOut2.global_yearly.rows.get ⟨0, by decide⟩
        from List.getD_eq_get _ _ (by decide), h0.2]
    norm_num
  · rw [show wOut2.global_yearly.rows.getD 2 dY
        = wOut2.global_yearly.rows.get ⟨2, by decide⟩
        from List.getD_eq_get _ _ (by decide), h2.2]
    rfl

/-- C1: for every input on which `process_data` succeeds, the `10Y_MA`
column of the derived `global_yearly` table is undefined (`none`) at the
first 9 rows of the per-year series, and at every index from 9 on it equals
the arithmetic mean of the trailing 10 per-year mean land-surface
temperature values ending at that index, in year order (whenever those 10
values are all defined). -/
theorem tenYMA_spec (files : Files) (out : ProcOut) (h : process_data files = some out)
    (i : Nat) (hi : i < out.global_yearly.rows.length) :
    (i < 9 → (out.global_yearly.rows.getD i dY).ma = none) ∧
      (9 ≤ i →
        (∀ o ∈ ((out.global_yearly.rows.map (fun r =>
            r.vals.getD (out.global_yearly.numCols.indexOf LAT) none)).drop (i - 9)).take 10,
          o.isSome) →
        (out.global_yearly.rows.getD i dY).ma
          = some (((((out.global_yearly.rows.map (fun r =>
                r.vals.getD (out.global_yearly.numCols.indexOf LAT) none)).drop
                (i - 9)).take 10).filterMap id).sum
              / (10 : ℚ))) := by
  obtain ⟨g, c, ci, hg, hc, hci, hL, hgy, _, _, _⟩ := process_data_some files out h
  rw [hgy] at hi ⊢
  rw [gy_numCols, gy_map_lat]
  have hi' : i < ((sortedYears g).map
      (fun y => (groupMeans g y).getD (g.numCols.indexOf LAT) none)).length := by
    rw [List.length_map]
    rw [gy_rows_length] at hi
    exact hi
  have hma : ((global_yearly_of g).rows.getD i dY).ma
      = (rollingMean 10 ((sortedYears g).map
          (fun y => (groupMeans g y).getD (g.numCols.indexOf LAT) none))).getD i none := by
    rw [getD_map_proj (fun r => r.ma) ((global_yearly_of g).rows) i dY, gy_map_ma]
    rfl
  rw [hma, rollingMean_getD 10 _ i hi']
  constructor
  · intro h9
    rw [if_pos (by omega)]
  · intro h9 hw
    rw [if_neg (by omega), show i + 1 - 10 = i - 9 from by omega,
      winVals_of_isSome _ hw]
    norm_num

/-- Witness for C1 at `wFiles1` (eleven consecutive years): the `10Y_MA`
entry of row 3 is undefined, and the entry of row 9 is the mean of the ten
trailing per-year land-temperature means. -/
theorem tenYMA_spec_witness :
    (wOut1.global_yearly.rows.getD 3 dY).ma = none ∧
      (wOut1.global_yearly.rows.getD 9 dY).ma
        = some (((((wOut1.global_yearly.rows.map (fun r =>
              r.vals.getD (wOut1.global_yearly.numCols.indexOf LAT) none)).drop
              0).take 10).filterMap id).sum
            / (10 : ℚ)) := by
  have h3 := tenYMA_spec wFiles1 wOut1 (Option.some_get (by decide)).symm 3 (by decide)
  have h9 := tenYMA_spec wFiles1 wOut1 (Option.some_get (by decide)).symm 9 (by decide)
  refine ⟨h3.1 (by omega), ?_⟩
  have h := h9.2 (by omega) (by decide)
  simpa using h

/-- C6 (amended): `process_data` is deterministic but does not leave its
inputs unchanged — it mutates the stored tables in place.  Every row of
each input table gets the derived `Year` assigned (its date string, numeric
values and categorical column preserved, and the table's column list
unchanged), and the returned countries/cities tables are exactly those
mutated input tables; the only failure paths are a malformed date in any of
the three tables and a global table lacking the `LandAverageTemperature`
column. -/
theorem process_data_mutation_and_failure :
    (∀ files out, process_data files = some out →
      out.countries = out.filesAfter.countriesT ∧
      out.cities = out.filesAfter.citiesT ∧
      out.filesAfter.globalT.numCols = files.globalT.numCols ∧
      out.filesAfter.countriesT.numCols = files.countriesT.numCols ∧
      out.filesAfter.citiesT.numCols = files.citiesT.numCols ∧
      List.Forall₂ annRel files.globalT.rows out.filesAfter.globalT.rows ∧
      List.Forall₂ annRel files.countriesT.rows out.filesAfter.countriesT.rows ∧
      List.Forall₂ annRel files.citiesT.rows out.filesAfter.citiesT.rows) ∧
    (∀ files, (process_data files).isSome ↔
      ((∀ r ∈ files.globalT.rows, (parseYear r.dt).isSome)
        ∧ LAT ∈ files.globalT.numCols
        ∧ (∀ r ∈ files.countriesT.rows, (parseYear r.dt).isSome)
        ∧ (∀ r ∈ files.citiesT.rows, (parseYear r.dt).isSome))) := by
  constructor
  · intro files out h
    obtain ⟨g, c, ci, hg, hc, hci, hL, hgy, hco, hcio, hfa⟩ := process_data_some files out h
    refine ⟨by rw [hco, hfa], by rw [hcio, hfa], ?_, ?_, ?_, ?_, ?_, ?_⟩ <;> rw [hfa]
    · exact annotate_numCols _ _ hg
    · exact annotate_numCols _ _ hc
    · exact annotate_numCols _ _ hci
    · exact annotate_rows _ _ hg
    · exact annotate_rows _ _ hc
    · exact annotate_rows _ _ hci
  · intro files
    rw [← annotate_isSome, ← annotate_isSome, ← annotate_isSome]
    unfold process_data
    rcases hg : annotate files.globalT with _ | g
    · simp [hg]
    · have hnc := annotate_numCols _ _ hg
      by_cases hL : LAT ∈ g.numCols
      · have hL' : LAT ∈ files.globalT.numCols := hnc ▸ hL
        rcases hc : annotate files.countriesT with _ | c <;>
          rcases hci : annotate files.citiesT with _ | ci <;>
          simp [hg, hc, hci, hL, hL']
      · have hL' : LAT ∉ files.globalT.numCols := by rw [← hnc]; exact hL
        simp [hg, hL, hL']

/-- C6, counterexample: on a concrete one-record input, `process_data`
succeeds but the post-call state of its input tables differs from the
initial state — the derived `Year` column has been assigned in place (the
global row's `year` goes from `none` to `some 1900`), so the aggregator
does not leave the input tables unchanged. -/
theorem process_data_mutation_cex :
    (process_data exFiles6).map (fun o => decide (o.filesAfter = exFiles6)) = some false ∧
      (process_data exFiles6).map (fun o => o.filesAfter.globalT.rows.map (fun r => r.year))
        = some [some 1900] ∧
      exFiles6.globalT.rows.map (fun r => r.year) = [none] := by
  refine ⟨by decide, by decide, by decide⟩

/-- Witness for the amended C6 at `exFiles6`. -/
theorem process_data_mutation_and_failure_witness :
    exOut6.countries = exOut6.filesAfter.countriesT ∧
      List.Forall₂ annRel exFiles6.globalT.rows exOut6.filesAfter.globalT.rows := by
  have h := process_data_mutation_and_failure.1 exFiles6 exOut6 (Option.some_get (by decide)).symm
  exact ⟨h.1, h.2.2.2.2.2.1⟩
